import Mathlib

/-!
Verification development for the habitattrack-api domain layer.

The Go sources are shallowly embedded as pure Lean functions:
* a Firestore collection is the list of its documents, and each repository
  method is a function from the collection (plus an explicit `now : Nat`
  standing for `time.Now().UTC()`) to an `Except`-classified result;
* every service method is a pure function from the relevant collections,
  the typed request, a freshly generated identifier (`uuid.NewString()`)
  and `now`, to a `SvcResult` recording the classified outcome, the new
  store contents, and the number of store mutations performed;
* Go `error` values returned by repositories are modelled by the inductive
  `GoErr`; sentinel comparison (`errors.Is`) is equality, since none of the
  repository sentinels wraps another error;
* API error codes are modelled exactly; human-readable message strings are
  abbreviated (no code path ever branches on a message).

Timestamps are natural numbers (UTC instants); `time.Time.IsZero` is `= 0`.
Monetary amounts (`float64` in the source) are modelled as integers: the
embedded code only copies amounts and compares them with `==`, and never
performs floating-point arithmetic on them.
-/

namespace HabitatTrack

/-- Go `error` values produced by the repository layer.  Each sentinel is a
distinct `errors.New` value; `plain` covers `errors.New` / `fmt.Errorf`
wrapped infrastructure errors. `sqlNoRows` is `database/sql.ErrNoRows`,
which the category service compares against; no firestore repository ever
returns or wraps it. -/
inductive GoErr where
  | sqlNoRows : GoErr
  | categoryNotFound : GoErr
  | propertyNotFound : GoErr
  | transactionNotFound : GoErr
  | emptyCategoryID : GoErr
  | emptyPropertyID : GoErr
  | emptyTransactionID : GoErr
  | nilCategory : GoErr
  | nilProperty : GoErr
  | nilTransaction : GoErr
  | invalidLimit : GoErr
  | plain : String → GoErr
deriving DecidableEq

/-- `errors.Is(err, sql.ErrNoRows)`: the firestore sentinels are independent
`errors.New` values, so `errors.Is` degenerates to identity. -/
def errorsIsSqlNoRows (e : GoErr) : Bool :=
  e == GoErr.sqlNoRows

/-- `internal/shared/apierrors.Error`, with the `details` field→message map
flattened to an association list. -/
structure ApiError where
  code : String
  message : String
  details : List (String × String)
deriving DecidableEq

def codeInternalError : String := "INTERNAL_ERROR"

def codeValidationError : String := "VALIDATION_ERROR"

def codeNotFound : String := "NOT_FOUND"

def codeConflict : String := "CONFLICT"

def codeBadRequest : String := "BAD_REQUEST"

def errInternal (msg : String) : ApiError :=
  ⟨codeInternalError, "An unexpected internal error occurred: " ++ msg, []⟩

def errValidation (message : String) (details : List (String × String)) : ApiError :=
  ⟨codeValidationError, message, details⟩

def errNotFound (resourceName : String) (resourceID : String) : ApiError :=
  ⟨codeNotFound, resourceName ++ " with ID " ++ resourceID ++ " not found.", []⟩

def errConflict (message : String) : ApiError :=
  ⟨codeConflict, message, []⟩

def errBadRequest (message : String) : ApiError :=
  ⟨codeBadRequest, message, []⟩

def isHexDigit (c : Char) : Bool :=
  "0123456789abcdefABCDEF".toList.contains c

/-- `uuid.Parse` restricted to the canonical 8-4-4-4-12 form, the only form
the services ever generate and the only one the claims quantify over. -/
def isValidUUID (s : String) : Bool :=
  let cs := s.toList
  cs.length == 36 &&
  (List.range 36).all fun i =>
    if i == 8 || i == 13 || i == 18 || i == 23 then cs.getD i ' ' == '-'
    else isHexDigit (cs.getD i ' ')

/-- Firestore document lookup by document id. -/
def fsGet (key : α → String) (col : List α) (id : String) : Option α :=
  col.find? fun d => key d == id

/-- Firestore `DocumentRef.Set`: overwrites the document when present,
creates it otherwise. -/
def fsSet (key : α → String) (col : List α) (doc : α) : List α :=
  if (col.find? fun d => key d == key doc).isSome then
    col.map fun d => if key d == key doc then doc else d
  else
    col ++ [doc]

/-- Firestore `DocumentRef.Delete` (idempotent). -/
def fsDelete (key : α → String) (col : List α) (id : String) : List α :=
  col.filter fun d => !(key d == id)

/-- `internal/core/entity.TransactionCategory`. -/
structure TransactionCategory where
  id : String
  name : String
  classification : String
  createdAt : Nat
  updatedAt : Nat
deriving DecidableEq

/-- `internal/core/entity.Property`. -/
structure Property where
  id : String
  name : String
  address : Option String
  createdAt : Nat
  updatedAt : Nat
deriving DecidableEq

/-- `internal/core/entity.Transaction` (`Type` is rendered `txType`; `Type`
is reserved in Lean). -/
structure Transaction where
  id : String
  amount : Int
  transactionDate : Nat
  description : Option String
  txType : String
  categoryID : String
  propertyID : Option String
  createdAt : Nat
  updatedAt : Nat
deriving DecidableEq

def incomeClassification : String := "income"

def expenseClassification : String := "expense"

def incomeTransaction : String := "income"

def expenseTransaction : String := "expense"

/-! ### Category firestore repository
(`internal/features/categories`, firestore implementation).  Infrastructure
failures of the firestore client are outside the embedding: the only error
results modelled are the sentinels the repository itself produces. -/

/-- `FirestoreCategoryRepository.GetByID`. -/
def categoryRepoGetByID (col : List TransactionCategory) (id : String) :
    Except GoErr TransactionCategory :=
  if id = "" then .error .emptyCategoryID
  else
    match fsGet (·.id) col id with
    | some c => .ok c
    | none => .error .categoryNotFound

/-- `FirestoreCategoryRepository.Create`: assigns timestamps when unset and
writes the document under its pre-set id. -/
def categoryRepoCreate (col : List TransactionCategory) (category : TransactionCategory)
    (now : Nat) : String × List TransactionCategory :=
  let category := if category.createdAt = 0 then { category with createdAt := now } else category
  let category := if category.updatedAt = 0 then { category with updatedAt := now } else category
  (category.id, fsSet (·.id) col category)

/-- `FirestoreCategoryRepository.Update`: overwrites `UpdatedAt` with the
repository clock immediately before the full-document `Set`. -/
def categoryRepoUpdate (col : List TransactionCategory) (category : TransactionCategory)
    (now : Nat) : Except GoErr (List TransactionCategory) :=
  if category.id = "" then .error .nilCategory
  else .ok (fsSet (·.id) col { category with updatedAt := now })

/-- `FirestoreCategoryRepository.Delete`. -/
def categoryRepoDelete (col : List TransactionCategory) (id : String) :
    Except GoErr (List TransactionCategory) :=
  if id = "" then .error .emptyCategoryID
  else .ok (fsDelete (·.id) col id)

/-- `FirestoreCategoryRepository.FindByNameAndClassification`: first document
matching both equality filters, `ErrCategoryNotFound` when none. -/
def categoryRepoFindByNameAndClassification (col : List TransactionCategory)
    (name : String) (classification : String) : Except GoErr TransactionCategory :=
  if name = "" then
    .error (.plain ("category name cannot be empty for FindByNameAndClassification"))
  else if classification = "" then
    .error (.plain ("classification cannot be empty for FindByNameAndClassification"))
  else
    match col.find? (fun c => c.name == name && c.classification == classification) with
    | some c => .ok c
    | none => .error .categoryNotFound

/-- Result order of the category and property `List` queries:
`OrderBy("Name", Asc)`. -/
def nameAsc (a b : TransactionCategory) : Prop :=
  a.name ≤ b.name

instance : DecidableRel nameAsc := fun a b => by
  unfold nameAsc; infer_instance

/-- `FirestoreCategoryRepository.List`: count over the whole filtered set,
then the ordered page selected by `Offset`/`Limit`.  No limit validation is
performed. -/
def categoryRepoList (col : List TransactionCategory) (classification : Option String)
    (limit offset : Int) : Except GoErr (List TransactionCategory × Nat) :=
  let q := match classification with
    | some c => if c ≠ "" then col.filter (fun d => d.classification == c) else col
    | none => col
  let totalItems := q.length
  let data := ((List.insertionSort nameAsc q).drop offset.toNat).take limit.toNat
  .ok (data, totalItems)

/-! ### Property firestore repository (`internal/features/properties`). -/

/-- `FirestorePropertyRepository.GetByID`. -/
def propertyRepoGetByID (col : List Property) (id : String) : Except GoErr Property :=
  if id = "" then .error .emptyPropertyID
  else
    match fsGet (·.id) col id with
    | some p => .ok p
    | none => .error .propertyNotFound

/-- `FirestorePropertyRepository.Create`. -/
def propertyRepoCreate (col : List Property) (property : Property) (now : Nat) :
    String × List Property :=
  let property := if property.createdAt = 0 then { property with createdAt := now } else property
  let property := if property.updatedAt = 0 then { property with updatedAt := now } else property
  (property.id, fsSet (·.id) col property)

/-- `FirestorePropertyRepository.Update`: stamps `UpdatedAt` with the
repository clock before the full-document `Set`. -/
def propertyRepoUpdate (col : List Property) (property : Property) (now : Nat) :
    Except GoErr (List Property) :=
  if property.id = "" then .error .nilProperty
  else .ok (fsSet (·.id) col { property with updatedAt := now })

/-- `FirestorePropertyRepository.Delete`. -/
def propertyRepoDelete (col : List Property) (id : String) : Except GoErr (List Property) :=
  if id = "" then .error .emptyPropertyID
  else .ok (fsDelete (·.id) col id)

/-- Name-ascending order on properties. -/
def propNameAsc (a b : Property) : Prop :=
  a.name ≤ b.name

instance : DecidableRel propNameAsc := fun a b => by
  unfold propNameAsc; infer_instance

/-- `FirestorePropertyRepository.List`: full-scan count, then the name-ordered
page; no limit validation. -/
def propertyRepoList (col : List Property) (limit offset : Int) :
    Except GoErr (List Property × Nat) :=
  let totalItems := col.length
  let data := ((List.insertionSort propNameAsc col).drop offset.toNat).take limit.toNat
  .ok (data, totalItems)

/-! ### Transaction firestore repository (`internal/features/transactions`). -/

/-- `FirestoreTransactionRepository.GetByID`. -/
def transactionRepoGetByID (col : List Transaction) (id : String) :
    Except GoErr Transaction :=
  if id = "" then .error .emptyTransactionID
  else
    match fsGet (·.id) col id with
    | some t => .ok t
    | none => .error .transactionNotFound

/-- `FirestoreTransactionRepository.Create`. -/
def transactionRepoCreate (col : List Transaction) (transaction : Transaction) (now : Nat) :
    String × List Transaction :=
  let transaction :=
    if transaction.createdAt = 0 then { transaction with createdAt := now } else transaction
  let transaction :=
    if transaction.updatedAt = 0 then { transaction with updatedAt := now } else transaction
  (transaction.id, fsSet (·.id) col transaction)

/-- `FirestoreTransactionRepository.Update`: stamps `UpdatedAt` with the
repository clock before the full-document `Set`. -/
def transactionRepoUpdate (col : List Transaction) (transaction : Transaction) (now : Nat) :
    Except GoErr (List Transaction) :=
  if transaction.id = "" then .error .nilTransaction
  else .ok (fsSet (·.id) col { transaction with updatedAt := now })

/-- `FirestoreTransactionRepository.Delete`. -/
def transactionRepoDelete (col : List Transaction) (id : String) :
    Except GoErr (List Transaction) :=
  if id = "" then .error .emptyTransactionID
  else .ok (fsDelete (·.id) col id)

/-- The conjunction of the optional `Where` filters of
`FirestoreTransactionRepository.List`: propertyID, type and categoryID
equality, inclusive `TransactionDate` range. -/
def txMatches (propertyID : Option String) (txTypeF : Option String)
    (categoryID : Option String) (startDate endDate : Option Nat) (t : Transaction) : Bool :=
  (match propertyID with
   | some p => if p ≠ "" then t.propertyID == some p else true
   | none => true) &&
  (match txTypeF with
   | some ty => if ty ≠ "" then t.txType == ty else true
   | none => true) &&
  (match categoryID with
   | some c => if c ≠ "" then t.categoryID == c else true
   | none => true) &&
  (match startDate with
   | some s => decide (s ≤ t.transactionDate)
   | none => true) &&
  (match endDate with
   | some e => decide (t.transactionDate ≤ e)
   | none => true)

/-- Result order of the transaction `List` query:
`OrderBy("TransactionDate", Desc)` then `OrderBy("CreatedAt", Desc)`. -/
def txOrder (a b : Transaction) : Prop :=
  b.transactionDate < a.transactionDate ∨
    (a.transactionDate = b.transactionDate ∧ b.createdAt ≤ a.createdAt)

instance : DecidableRel txOrder := fun a b => by
  unfold txOrder; infer_instance

instance : IsTotal Transaction txOrder :=
  ⟨by intro a b; unfold txOrder; omega⟩

instance : IsTrans Transaction txOrder :=
  ⟨by intro a b c; unfold txOrder; omega⟩

/-- `FirestoreTransactionRepository.List`: count over the whole filtered set
(the `GetAll` before ordering and paging), then the ordered page; no limit
validation. -/
def transactionRepoList (col : List Transaction) (propertyID : Option String)
    (txTypeF : Option String) (categoryID : Option String)
    (startDate endDate : Option Nat) (limit offset : Int) :
    Except GoErr (List Transaction × Nat) :=
  let q := col.filter (txMatches propertyID txTypeF categoryID startDate endDate)
  let totalItems := q.length
  let data := ((List.insertionSort txOrder q).drop offset.toNat).take limit.toNat
  .ok (data, totalItems)

/-! ### Legacy property repository (`repositories/property.go`, superseded
iteration): cursor-based paging with an explicit limit guard. -/

/-- `types.Property` of the legacy iteration. -/
structure LegacyProperty where
  id : String
  number : String
  streetName : String
  town : String
  postcode : String
deriving DecidableEq

/-- Document-id order, Firestore's default with no `OrderBy`. -/
def legacyIdAsc (a b : LegacyProperty) : Prop :=
  a.id ≤ b.id

instance : DecidableRel legacyIdAsc := fun a b => by
  unfold legacyIdAsc; infer_instance

/-- `FirestorePropertyRepository.GetProperties` of the legacy iteration:
rejects a limit outside `[1, constants.MaxPageSize]` (`MaxPageSize = 100`)
with `ErrInvalidLimit`, otherwise pages in default document-id order
starting after `cursor`, returning the last document id as the new cursor. -/
def legacyGetProperties (col : List LegacyProperty) (limit : Int) (cursor : String) :
    Except GoErr (List LegacyProperty × String) :=
  if limit < 1 ∨ limit > 100 then .error .invalidLimit
  else
    let sorted := List.insertionSort legacyIdAsc col
    let after := if cursor = "" then sorted else sorted.filter (fun p => decide (cursor < p.id))
    let page := after.take limit.toNat
    let cursorOut := ((page.getLast?).map (·.id)).getD cursor
    .ok (page, cursorOut)

/-! ### DTOs and shared service plumbing. -/

/-- Outcome of a service call: the classified result, the store contents
after the call, and the number of store mutations (`Create`/`Update`/
`Delete` port calls) it performed. -/
instance [DecidableEq ε] [DecidableEq α] : DecidableEq (Except ε α)
  | .ok a, .ok b =>
    if h : a = b then .isTrue (by rw [h]) else .isFalse (by intro hc; cases hc; exact h rfl)
  | .ok _, .error _ => .isFalse (by intro hc; cases hc)
  | .error _, .ok _ => .isFalse (by intro hc; cases hc)
  | .error a, .error b =>
    if h : a = b then .isTrue (by rw [h]) else .isFalse (by intro hc; cases hc; exact h rfl)

structure SvcResult (ρ : Type) (σ : Type) where
  result : Except ApiError ρ
  store : σ
  writes : Nat
deriving DecidableEq

/-- `apitypes.PaginationInfo` (the unused cursor fields are omitted). -/
structure PaginationInfo where
  totalItems : Int
  totalPages : Int
  currentPage : Int
  pageSize : Int
deriving DecidableEq

/-- Outcome of a service `List` call, instrumented with the `limit` and
`offset` arguments handed to the store port. -/
structure ListCall (ρ : Type) where
  result : Except ApiError ρ
  repoLimit : Int
  repoOffset : Int
deriving DecidableEq

/-- Shared pagination constants (`defaultServicePageSize` etc., identical in
the three feature packages). -/
def defaultServicePageSize : Int := 20

def maxServicePageSize : Int := 100

def defaultServicePageNum : Int := 1

/-- `int(math.Ceil(float64(totalItems) / float64(pageSize)))`.  For
`pageSize ∈ [1,100]` and any document count representable below `2^53` the
`float64` computation is the exact ceiling, which over naturals is
`(totalItems + pageSize - 1) / pageSize`. -/
def goCeil (totalItems pageSize : Nat) : Nat :=
  (totalItems + pageSize - 1) / pageSize

/-- `categories.CreateCategoryRequest`. -/
structure CreateCategoryRequest where
  name : String
  classification : String
deriving DecidableEq

/-- `categories.UpdateCategoryRequest`: `nil` pointers are `none`. -/
structure UpdateCategoryRequest where
  name : Option String
  classification : Option String
deriving DecidableEq

/-- `categories.CategoryResponse`. -/
structure CategoryResponse where
  id : String
  name : String
  classification : String
  createdAt : Nat
  updatedAt : Nat
deriving DecidableEq

/-- `categories.ToCategoryResponse`. -/
def toCategoryResponse (c : TransactionCategory) : CategoryResponse :=
  ⟨c.id, c.name, c.classification, c.createdAt, c.updatedAt⟩

/-- `properties.CreatePropertyRequest`. -/
structure CreatePropertyRequest where
  name : String
  address : Option String
deriving DecidableEq

/-- `properties.UpdatePropertyRequest`. -/
structure UpdatePropertyRequest where
  name : Option String
  address : Option String
deriving DecidableEq

/-- `properties.PropertyResponse`. -/
structure PropertyResponse where
  id : String
  name : String
  address : Option String
  createdAt : Nat
  updatedAt : Nat
deriving DecidableEq

/-- `properties.ToPropertyResponse`. -/
def toPropertyResponse (p : Property) : PropertyResponse :=
  ⟨p.id, p.name, p.address, p.createdAt, p.updatedAt⟩

/-- `transactions.CreateTransactionRequest`. -/
structure CreateTransactionRequest where
  amount : Int
  transactionDate : Nat
  description : Option String
  txType : String
  categoryID : String
  propertyID : Option String
deriving DecidableEq

/-- `transactions.UpdateTransactionRequest`. -/
structure UpdateTransactionRequest where
  amount : Option Int
  transactionDate : Option Nat
  description : Option String
  txType : Option String
  categoryID : Option String
  propertyID : Option String
deriving DecidableEq

/-- `transactions.TransactionResponse`. -/
structure TransactionResponse where
  id : String
  amount : Int
  transactionDate : Nat
  description : Option String
  txType : String
  categoryID : String
  propertyID : Option String
  createdAt : Nat
  updatedAt : Nat
deriving DecidableEq

/-- `transactions.ToTransactionResponse`. -/
def toTransactionResponse (t : Transaction) : TransactionResponse :=
  ⟨t.id, t.amount, t.transactionDate, t.description, t.txType, t.categoryID, t.propertyID,
    t.createdAt, t.updatedAt⟩

/-! ### Category service (`internal/features/categories/service.go`).
The service is wired (in `main.go`) to the firestore repository above.  Note
that its sentinel recognition tests `errors.Is(err, sql.ErrNoRows)` while
that repository signals not-found with its own `ErrCategoryNotFound`. -/

/-- `categoryService.CreateCategory`. -/
def createCategory (col : List TransactionCategory) (req : CreateCategoryRequest)
    (newId : String) (now : Nat) : SvcResult CategoryResponse (List TransactionCategory) :=
  if req.name = "" then
    ⟨.error (errValidation ("Validation failed") [("name", "Name is required.")]), col, 0⟩
  else if req.classification ≠ incomeClassification ∧
      req.classification ≠ expenseClassification then
    ⟨.error (errValidation ("Validation failed")
      [("classification", "Classification must be income or expense.")]), col, 0⟩
  else
    match categoryRepoFindByNameAndClassification col req.name req.classification with
    | .error e =>
        if !(errorsIsSqlNoRows e) then
          ⟨.error (errInternal ("checking for existing category")), col, 0⟩
        else
          let category : TransactionCategory :=
            { id := newId, name := req.name, classification := req.classification,
              createdAt := now, updatedAt := now }
          ⟨.ok (toCategoryResponse category), (categoryRepoCreate col category now).2, 1⟩
    | .ok _ =>
        ⟨.error (errConflict ("Category with given name and classification already exists.")),
          col, 0⟩

/-- `categoryService.GetCategoryByID`. -/
def getCategoryByID (col : List TransactionCategory) (id : String) :
    SvcResult CategoryResponse (List TransactionCategory) :=
  if !(isValidUUID id) then
    ⟨.error (errBadRequest ("Invalid category ID format: " ++ id)), col, 0⟩
  else
    match categoryRepoGetByID col id with
    | .error e =>
        if errorsIsSqlNoRows e then ⟨.error (errNotFound ("Category") id), col, 0⟩
        else ⟨.error (errInternal ("getting category by ID " ++ id)), col, 0⟩
    | .ok category => ⟨.ok (toCategoryResponse category), col, 0⟩

/-- `categoryService.ListCategories`. -/
def listCategories (col : List TransactionCategory) (classificationFilter : Option String)
    (page pageSize : Int) : ListCall (List CategoryResponse × PaginationInfo) :=
  let page := if page ≤ 0 then defaultServicePageNum else page
  let pageSize :=
    if pageSize ≤ 0 then defaultServicePageSize
    else if pageSize > maxServicePageSize then maxServicePageSize else pageSize
  let offset := (page - 1) * pageSize
  match categoryRepoList col classificationFilter pageSize offset with
  | .error _ => ⟨.error (errInternal ("listing categories")), pageSize, offset⟩
  | .ok (categories, totalItems) =>
      let totalPages : Int := if totalItems > 0 then (goCeil totalItems pageSize.toNat : Nat) else 0
      ⟨.ok (categories.map toCategoryResponse,
          ⟨(totalItems : Nat), totalPages, page, pageSize⟩), pageSize, offset⟩

/-- The `req.Name` merge step of `categoryService.UpdateCategory`: a nil or
empty-string pointer, or an unchanged value, contributes nothing. -/
def mergeCategoryName (req : UpdateCategoryRequest) (category : TransactionCategory) :
    TransactionCategory × Bool :=
  match req.name with
  | some n =>
      if n ≠ "" ∧ n ≠ category.name then ({ category with name := n }, true)
      else (category, false)
  | none => (category, false)

/-- The `req.Classification` merge step of `categoryService.UpdateCategory`,
which can fail validation when a change to a value outside
income/expense is requested. -/
def mergeCategoryClassification (req : UpdateCategoryRequest)
    (s : TransactionCategory × Bool) : Except ApiError (TransactionCategory × Bool) :=
  match req.classification with
  | some cl =>
      if cl ≠ "" ∧ cl ≠ s.1.classification then
        if cl ≠ incomeClassification ∧ cl ≠ expenseClassification then
          .error (errValidation ("Validation failed")
            [("classification", "Classification must be income or expense.")])
        else .ok ({ s.1 with classification := cl }, true)
      else .ok s
  | none => .ok s

/-- The uniqueness re-check of `categoryService.UpdateCategory`, run when the
(name, classification) pair actually changed; the record being updated is
excluded from the match. -/
def categoryUniquenessAbort (col : List TransactionCategory) (id : String)
    (category original : TransactionCategory) : Option ApiError :=
  if category.name ≠ original.name ∨ category.classification ≠ original.classification then
    match categoryRepoFindByNameAndClassification col category.name category.classification with
    | .error e =>
        if !(errorsIsSqlNoRows e) then
          some (errInternal ("checking for existing category during update"))
        else none
    | .ok existing =>
        if existing.id ≠ id then
          some (errConflict ("Another category with given name and classification already exists."))
        else none
  else none

/-- `categoryService.UpdateCategory`. -/
def updateCategory (col : List TransactionCategory) (id : String)
    (req : UpdateCategoryRequest) (now : Nat) :
    SvcResult CategoryResponse (List TransactionCategory) :=
  if !(isValidUUID id) then
    ⟨.error (errBadRequest ("Invalid category ID format: " ++ id)), col, 0⟩
  else
    match categoryRepoGetByID col id with
    | .error e =>
        if errorsIsSqlNoRows e then ⟨.error (errNotFound ("Category") id), col, 0⟩
        else ⟨.error (errInternal ("getting category by ID for update")), col, 0⟩
    | .ok original =>
        match mergeCategoryClassification req (mergeCategoryName req original) with
        | .error e => ⟨.error e, col, 0⟩
        | .ok (category, updated) =>
            if updated then
              match categoryUniquenessAbort col id category original with
              | some e => ⟨.error e, col, 0⟩
              | none =>
                  let category := { category with updatedAt := now }
                  match categoryRepoUpdate col category now with
                  | .error _ => ⟨.error (errInternal ("updating category " ++ id)), col, 0⟩
                  | .ok col2 => ⟨.ok (toCategoryResponse category), col2, 1⟩
            else ⟨.ok (toCategoryResponse category), col, 0⟩

/-- `categoryService.DeleteCategory`: existence check, then the idempotent
store delete. -/
def deleteCategory (col : List TransactionCategory) (id : String) :
    SvcResult Unit (List TransactionCategory) :=
  if !(isValidUUID id) then
    ⟨.error (errBadRequest ("Invalid category ID format: " ++ id)), col, 0⟩
  else
    match categoryRepoGetByID col id with
    | .error e =>
        if errorsIsSqlNoRows e then ⟨.error (errNotFound ("Category") id), col, 0⟩
        else ⟨.error (errInternal ("checking category before delete")), col, 0⟩
    | .ok _ =>
        match categoryRepoDelete col id with
        | .error _ => ⟨.error (errInternal ("deleting category " ++ id)), col, 0⟩
        | .ok col2 => ⟨.ok (), col2, 1⟩

/-! ### Property service (`internal/features/properties`, service in
`src/unnamed/part_004`).  `CreateProperty` performs no field validation of
its own; the only name checks live in the handler's struct validation. -/

/-- `propertyService.CreateProperty`: assigns id and timestamps and persists;
no validation happens at the service level. -/
def createProperty (col : List Property) (req : CreatePropertyRequest)
    (newId : String) (now : Nat) : SvcResult PropertyResponse (List Property) :=
  let property : Property :=
    { id := newId, name := req.name, address := req.address, createdAt := now, updatedAt := now }
  ⟨.ok (toPropertyResponse property), (propertyRepoCreate col property now).2, 1⟩

/-- `propertyService.GetPropertyByID`: any repository error is mapped to
`NotFound` (the code comments call this the simplified mapping). -/
def getPropertyByID (col : List Property) (id : String) :
    SvcResult PropertyResponse (List Property) :=
  if !(isValidUUID id) then
    ⟨.error (errBadRequest ("Invalid property ID format: " ++ id)), col, 0⟩
  else
    match propertyRepoGetByID col id with
    | .error _ => ⟨.error (errNotFound ("Property") id), col, 0⟩
    | .ok property => ⟨.ok (toPropertyResponse property), col, 0⟩

/-- `propertyService.ListProperties`. -/
def listProperties (col : List Property) (page pageSize : Int) :
    ListCall (List PropertyResponse × PaginationInfo) :=
  let page := if page ≤ 0 then defaultServicePageNum else page
  let pageSize :=
    if pageSize ≤ 0 then defaultServicePageSize
    else if pageSize > maxServicePageSize then maxServicePageSize else pageSize
  let offset := (page - 1) * pageSize
  match propertyRepoList col pageSize offset with
  | .error _ => ⟨.error (errInternal ("listing properties")), pageSize, offset⟩
  | .ok (properties, totalItems) =>
      let totalPages : Int := if totalItems > 0 then (goCeil totalItems pageSize.toNat : Nat) else 0
      ⟨.ok (properties.map toPropertyResponse,
          ⟨(totalItems : Nat), totalPages, page, pageSize⟩), pageSize, offset⟩

/-- The `req.Name` merge step of `propertyService.UpdateProperty`: nil,
empty-string, or unchanged names contribute nothing. -/
def mergePropertyName (req : UpdatePropertyRequest) (property : Property) :
    Property × Bool :=
  match req.name with
  | some n =>
      if n ≠ "" ∧ n ≠ property.name then ({ property with name := n }, true)
      else (property, false)
  | none => (property, false)

/-- The `req.Address` merge step of `propertyService.UpdateProperty`. -/
def mergePropertyAddress (req : UpdatePropertyRequest) (s : Property × Bool) :
    Property × Bool :=
  match req.address with
  | some a =>
      match s.1.address with
      | none => ({ s.1 with address := some a }, true)
      | some cur => if a ≠ cur then ({ s.1 with address := some a }, true) else s
  | none => s

/-- `propertyService.UpdateProperty`. -/
def updateProperty (col : List Property) (id : String) (req : UpdatePropertyRequest)
    (now : Nat) : SvcResult PropertyResponse (List Property) :=
  if !(isValidUUID id) then
    ⟨.error (errBadRequest ("Invalid property ID format: " ++ id)), col, 0⟩
  else
    match propertyRepoGetByID col id with
    | .error _ => ⟨.error (errNotFound ("Property") id), col, 0⟩
    | .ok original =>
        match mergePropertyAddress req (mergePropertyName req original) with
        | (property, updated) =>
            if updated then
              let property := { property with updatedAt := now }
              match propertyRepoUpdate col property now with
              | .error _ => ⟨.error (errInternal ("updating property " ++ id)), col, 0⟩
              | .ok col2 => ⟨.ok (toPropertyResponse property), col2, 1⟩
            else ⟨.ok (toPropertyResponse property), col, 0⟩

/-- `propertyService.DeleteProperty`: existence check (any error mapped to
`NotFound`), then the store delete. -/
def deleteProperty (col : List Property) (id : String) : SvcResult Unit (List Property) :=
  if !(isValidUUID id) then
    ⟨.error (errBadRequest ("Invalid property ID format: " ++ id)), col, 0⟩
  else
    match propertyRepoGetByID col id with
    | .error _ => ⟨.error (errNotFound ("Property") id), col, 0⟩
    | .ok _ =>
        match propertyRepoDelete col id with
        | .error _ => ⟨.error (errInternal ("deleting property " ++ id)), col, 0⟩
        | .ok col2 => ⟨.ok (), col2, 1⟩

/-- The struct validation `PropertyHandler.bindAndValidate` performs on a
`CreatePropertyRequest` (validator tags `name: required,min=1,max=255`,
`address: omitempty,max=500`), with the messages `formatValidationErrors`
produces.  String lengths are rune counts, as in the validator. -/
def validateCreatePropertyRequest (req : CreatePropertyRequest) : List (String × String) :=
  (if req.name = "" then [("Name", "Name is required.")]
   else if req.name.length > 255 then [("Name", "Name must not exceed 255 characters.")]
   else []) ++
  (match req.address with
   | some a => if a.length > 500 then [("Address", "Address must not exceed 500 characters.")] else []
   | none => [])

/-- `PropertyHandler.createProperty`: bind-and-validate, then delegate to the
service; a validation failure is returned before any service call. -/
def createPropertyHandler (col : List Property) (req : CreatePropertyRequest)
    (newId : String) (now : Nat) : SvcResult PropertyResponse (List Property) :=
  let errs := validateCreatePropertyRequest req
  if errs ≠ [] then ⟨.error (errValidation ("Validation failed") errs), col, 0⟩
  else createProperty col req newId now

/-! ### Transaction service (`internal/features/transactions`, service in
`src/unnamed/part_005`). -/

/-- The type/classification cross-check of the transaction service, exactly
as written: it fires when the type is `income` against a non-`income`
classification or `expense` against a non-`expense` classification. -/
def classificationMismatch (ty classification : String) : Bool :=
  (ty == incomeTransaction && !(classification == incomeClassification)) ||
  (ty == expenseTransaction && !(classification == expenseClassification))

/-- `transactionService.CreateTransaction`: category lookup, cross-check,
then id/timestamp assignment and persist. -/
def createTransaction (cats : List TransactionCategory) (txs : List Transaction)
    (req : CreateTransactionRequest) (newId : String) (now : Nat) :
    SvcResult TransactionResponse (List Transaction) :=
  match categoryRepoGetByID cats req.categoryID with
  | .error _ =>
      ⟨.error (errValidation ("Validation failed for categoryId.")
        [("categoryId", "Category not found or invalid.")]), txs, 0⟩
  | .ok category =>
      if classificationMismatch req.txType category.classification then
        ⟨.error (errValidation ("Transaction type does not match category classification.")
          [("type", "Type mismatch with category classification.")]), txs, 0⟩
      else
        let transaction : Transaction :=
          { id := newId, amount := req.amount, transactionDate := req.transactionDate,
            description := req.description, txType := req.txType, categoryID := req.categoryID,
            propertyID := req.propertyID, createdAt := now, updatedAt := now }
        ⟨.ok (toTransactionResponse transaction),
          (transactionRepoCreate txs transaction now).2, 1⟩

/-- `transactionService.GetTransactionByID`: any repository error is mapped
to `NotFound`. -/
def getTransactionByID (txs : List Transaction) (id : String) :
    SvcResult TransactionResponse (List Transaction) :=
  if !(isValidUUID id) then
    ⟨.error (errBadRequest ("Invalid transaction ID format: " ++ id)), txs, 0⟩
  else
    match transactionRepoGetByID txs id with
    | .error _ => ⟨.error (errNotFound ("Transaction") id), txs, 0⟩
    | .ok t => ⟨.ok (toTransactionResponse t), txs, 0⟩

/-- `transactionService.ListTransactions`. -/
def listTransactions (txs : List Transaction) (propertyIDFilter : Option String)
    (typeFilter : Option String) (categoryIDFilter : Option String)
    (startDateFilter endDateFilter : Option Nat) (page pageSize : Int) :
    ListCall (List TransactionResponse × PaginationInfo) :=
  let page := if page ≤ 0 then defaultServicePageNum else page
  let pageSize :=
    if pageSize ≤ 0 then defaultServicePageSize
    else if pageSize > maxServicePageSize then maxServicePageSize else pageSize
  let offset := (page - 1) * pageSize
  match transactionRepoList txs propertyIDFilter typeFilter categoryIDFilter
      startDateFilter endDateFilter pageSize offset with
  | .error _ => ⟨.error (errInternal ("listing transactions")), pageSize, offset⟩
  | .ok (transactions, totalItems) =>
      let totalPages : Int := if totalItems > 0 then (goCeil totalItems pageSize.toNat : Nat) else 0
      ⟨.ok (transactions.map toTransactionResponse,
          ⟨(totalItems : Nat), totalPages, page, pageSize⟩), pageSize, offset⟩

/-- The `req.Amount` merge step of `transactionService.UpdateTransaction`. -/
def mergeTxAmount (req : UpdateTransactionRequest) (s : Transaction × Bool) :
    Transaction × Bool :=
  match req.amount with
  | some a => if a ≠ s.1.amount then ({ s.1 with amount := a }, true) else s
  | none => s

/-- The `req.TransactionDate` merge step: a supplied zero instant is ignored
(`IsZero`), as is an unchanged one. -/
def mergeTxDate (req : UpdateTransactionRequest) (s : Transaction × Bool) :
    Transaction × Bool :=
  match req.transactionDate with
  | some d =>
      if d ≠ 0 ∧ d ≠ s.1.transactionDate then ({ s.1 with transactionDate := d }, true)
      else s
  | none => s

/-- The `req.Description` merge step. -/
def mergeTxDescription (req : UpdateTransactionRequest) (s : Transaction × Bool) :
    Transaction × Bool :=
  match req.description with
  | some dsc =>
      match s.1.description with
      | none => ({ s.1 with description := some dsc }, true)
      | some cur => if dsc ≠ cur then ({ s.1 with description := some dsc }, true) else s
  | none => s

/-- The `req.Type` merge step. -/
def mergeTxType (req : UpdateTransactionRequest) (s : Transaction × Bool) :
    Transaction × Bool :=
  match req.txType with
  | some ty => if ty ≠ s.1.txType then ({ s.1 with txType := ty }, true) else s
  | none => s

/-- The `req.CategoryID` merge step. -/
def mergeTxCategory (req : UpdateTransactionRequest) (s : Transaction × Bool) :
    Transaction × Bool :=
  match req.categoryID with
  | some c => if c ≠ s.1.categoryID then ({ s.1 with categoryID := c }, true) else s
  | none => s

/-- The `req.PropertyID` merge step. -/
def mergeTxProperty (req : UpdateTransactionRequest) (s : Transaction × Bool) :
    Transaction × Bool :=
  match req.propertyID with
  | some p =>
      match s.1.propertyID with
      | none => ({ s.1 with propertyID := some p }, true)
      | some cur => if p ≠ cur then ({ s.1 with propertyID := some p }, true) else s
  | none => s

/-- The field-merge of `transactionService.UpdateTransaction`: each supplied
field that differs from the stored value is applied and marks the record
updated; nil fields are left untouched.  The steps run in source order. -/
def mergeTransaction (req : UpdateTransactionRequest) (t0 : Transaction) :
    Transaction × Bool :=
  mergeTxProperty req (mergeTxCategory req (mergeTxType req
    (mergeTxDescription req (mergeTxDate req (mergeTxAmount req (t0, false))))))

/-- The re-validation of `transactionService.UpdateTransaction`, run (when
something changed) whenever the request supplied a category or a type: the
merged category is looked up and the merged type cross-checked. -/
def transactionUpdateAbort (cats : List TransactionCategory)
    (req : UpdateTransactionRequest) (merged : Transaction) : Option ApiError :=
  if req.categoryID ≠ none ∨ req.txType ≠ none then
    match categoryRepoGetByID cats merged.categoryID with
    | .error _ =>
        some (errValidation ("Validation failed for categoryId.")
          [("categoryId", "Category not found or invalid.")])
    | .ok category =>
        if classificationMismatch merged.txType category.classification then
          some (errValidation ("Transaction type does not match category classification.")
            [("type", "Type mismatch with category classification.")])
        else none
  else none

/-- `transactionService.UpdateTransaction`. -/
def updateTransaction (cats : List TransactionCategory) (txs : List Transaction)
    (id : String) (req : UpdateTransactionRequest) (now : Nat) :
    SvcResult TransactionResponse (List Transaction) :=
  if !(isValidUUID id) then
    ⟨.error (errBadRequest ("Invalid transaction ID format: " ++ id)), txs, 0⟩
  else
    match transactionRepoGetByID txs id with
    | .error _ => ⟨.error (errNotFound ("Transaction") id), txs, 0⟩
    | .ok t0 =>
        match mergeTransaction req t0 with
        | (merged, updated) =>
            if updated then
              match transactionUpdateAbort cats req merged with
              | some e => ⟨.error e, txs, 0⟩
              | none =>
                  let merged := { merged with updatedAt := now }
                  match transactionRepoUpdate txs merged now with
                  | .error _ => ⟨.error (errInternal ("updating transaction " ++ id)), txs, 0⟩
                  | .ok txs2 => ⟨.ok (toTransactionResponse merged), txs2, 1⟩
            else ⟨.ok (toTransactionResponse t0), txs, 0⟩

/-! ### Concrete fixtures used by witnesses and counterexamples. -/

def uuidA : String := "00000000-0000-0000-0000-000000000000"

def uuidB : String := "11111111-1111-1111-1111-111111111111"

def catRentIncome : TransactionCategory := ⟨uuidA, "Rent", "income", 1, 1⟩

def txE1 : Transaction := ⟨"t1", 10, 5, none, "expense", "c1", some "P1", 1, 1⟩

def txE2 : Transaction := ⟨"t2", 20, 9, none, "expense", "c1", some "P1", 2, 2⟩

def txI3 : Transaction := ⟨"t3", 30, 9, none, "income", "c1", some "P1", 3, 3⟩

/-! ### Helper lemmas. -/

theorem find?_map_replace (key : α → String) (doc : α) (col : List α) :
    (col.map fun d => if key d == key doc then doc else d).find? (fun d => key d == key doc) =
      if (col.find? fun d => key d == key doc).isSome then some doc else none := by
  induction col with
  | nil => simp
  | cons a as ih =>
      simp only [List.map_cons, List.find?_cons]
      by_cases h : key a = key doc
      · simp [h]
      · have hb : (key a == key doc) = false := by simp [h]
        simp only [hb, if_false, cond_false, ih]
        simp [hb]

theorem find?_append_of_none (p : α → Bool) (doc : α) (hp : p doc = true) (col : List α)
    (h : col.find? p = none) : (col ++ [doc]).find? p = some doc := by
  rw [List.find?_eq_none] at h
  induction col with
  | nil => simp [List.find?_cons, hp]
  | cons a as ih =>
      have ha : p a = false := by
        have := h a (List.mem_cons_self a as)
        simp at this
        simp [this]
      simp only [List.cons_append, List.find?_cons, ha, cond_false]
      exact ih fun x hx => h x (List.mem_cons_of_mem a hx)

/-- A `Set` followed by a lookup of the written document id yields the
written document. -/
theorem fsGet_fsSet (key : α → String) (col : List α) (doc : α) :
    fsGet key (fsSet key col doc) (key doc) = some doc := by
  unfold fsGet fsSet
  by_cases h : (col.find? fun d => key d == key doc).isSome
  · rw [if_pos h, find?_map_replace, if_pos h]
  · rw [if_neg h]
    refine find?_append_of_none _ _ (by simp) _ ?_
    cases hf : col.find? fun d => key d == key doc with
    | none => rfl
    | some x => rw [hf] at h; simp at h

/-- `goCeil` is the exact ceiling of `t / s`: the least number of pages
covering `t` items at `s` per page. -/
theorem goCeil_bounds (t s : Nat) (ht : 0 < t) (hs : 0 < s) :
    t ≤ goCeil t s * s ∧ (goCeil t s - 1) * s < t ∧ 1 ≤ goCeil t s := by
  unfold goCeil
  have h1 : t + s - 1 < (t + s - 1) / s * s + s := Nat.lt_div_mul_add hs
  have h2 : (t + s - 1) / s * s ≤ t + s - 1 := Nat.div_mul_le_self _ _
  have h3 : 1 ≤ (t + s - 1) / s := by
    rw [Nat.one_le_div_iff hs]; omega
  refine ⟨?_, ?_, h3⟩
  · generalize hm : (t + s - 1) / s * s = m at h1 h2
    omega
  · rw [Nat.sub_one_mul]
    generalize hm : (t + s - 1) / s * s = m at h1 h2
    omega

/-- Int-level ceiling bounds for the `totalPages` computation: with a
positive page size `S`, `goCeil t S.toNat` pages are enough for `t` items
and one page fewer is not. -/
theorem totalPages_ceil_bounds (t : Nat) (S : Int) (ht : 0 < t) (hS : 0 < S) :
    (t : Int) ≤ ((goCeil t S.toNat : Nat) : Int) * S ∧
    (((goCeil t S.toNat : Nat) : Int) - 1) * S < (t : Int) := by
  have hsn : 0 < S.toNat := by omega
  obtain ⟨h1, h2, h3⟩ := goCeil_bounds t S.toNat ht hsn
  have hS2 : ((S.toNat : Nat) : Int) = S := by omega
  constructor
  · have hc := (Nat.cast_le (α := Int)).mpr h1
    rw [Nat.cast_mul, hS2] at hc
    exact hc
  · have hc := (Nat.cast_lt (α := Int)).mpr h2
    rw [Nat.cast_mul, Nat.cast_sub h3, hS2] at hc
    simpa using hc

/-- The pagination metadata produced by the three service `List` methods:
`totalItems` is nonnegative, `totalPages` is 0 exactly on an empty result
set and otherwise the exact ceiling of `totalItems / pageSize`. -/
theorem paginationInfo_spec (total : Nat) (pageSize : Int) :
    0 ≤ (total : Int) ∧
    (((total : Int) = 0 →
        (if total > 0 then ((goCeil total
          ((if pageSize ≤ 0 then defaultServicePageSize
            else if pageSize > maxServicePageSize then maxServicePageSize
            else pageSize).toNat) : Nat) : Int) else 0) = 0)) ∧
    (0 < (total : Int) →
      (total : Int) ≤
        (if total > 0 then ((goCeil total
          ((if pageSize ≤ 0 then defaultServicePageSize
            else if pageSize > maxServicePageSize then maxServicePageSize
            else pageSize).toNat) : Nat) : Int) else 0) *
          (if pageSize ≤ 0 then defaultServicePageSize
            else if pageSize > maxServicePageSize then maxServicePageSize else pageSize) ∧
      ((if total > 0 then ((goCeil total
          ((if pageSize ≤ 0 then defaultServicePageSize
            else if pageSize > maxServicePageSize then maxServicePageSize
            else pageSize).toNat) : Nat) : Int) else 0) - 1) *
          (if pageSize ≤ 0 then defaultServicePageSize
            else if pageSize > maxServicePageSize then maxServicePageSize else pageSize) <
        (total : Int)) := by
  have hS : (0 : Int) <
      (if pageSize ≤ 0 then defaultServicePageSize
        else if pageSize > maxServicePageSize then maxServicePageSize else pageSize) := by
    unfold defaultServicePageSize maxServicePageSize
    split
    · omega
    · split <;> omega
  refine ⟨Int.ofNat_nonneg total, ?_, ?_⟩
  · intro h0
    have : total = 0 := by omega
    simp [this]
  · intro hpos
    have ht : 0 < total := by omega
    rw [if_pos ht]
    exact totalPages_ceil_bounds total _ ht hS

/-- Under the two transaction type values accepted by the DTO validation
(`oneof=income expense`), the cross-check of the transaction service fires
exactly when the type differs from the classification. -/
theorem classificationMismatch_iff (ty cl : String)
    (hty : ty = incomeTransaction ∨ ty = expenseTransaction) :
    classificationMismatch ty cl = true ↔ cl ≠ ty := by
  rcases hty with h | h <;> subst h <;>
    simp [classificationMismatch, incomeTransaction, expenseTransaction,
      incomeClassification, expenseClassification]

theorem mergeTxAmount_noChange (req : UpdateTransactionRequest) (s : Transaction × Bool)
    (h : req.amount = none ∨ req.amount = some s.1.amount) : mergeTxAmount req s = s := by
  rcases h with h | h <;> simp [mergeTxAmount, h]

theorem mergeTxDate_noChange (req : UpdateTransactionRequest) (s : Transaction × Bool)
    (h : req.transactionDate = none ∨ req.transactionDate = some s.1.transactionDate) :
    mergeTxDate req s = s := by
  rcases h with h | h <;> simp [mergeTxDate, h]

theorem mergeTxDescription_noChange (req : UpdateTransactionRequest) (s : Transaction × Bool)
    (h : req.description = none ∨ req.description = s.1.description) :
    mergeTxDescription req s = s := by
  rcases h with h | h
  · simp [mergeTxDescription, h]
  · cases hd : s.1.description with
    | none => rw [hd] at h; simp [mergeTxDescription, h]
    | some cur => rw [hd] at h; simp [mergeTxDescription, h, hd]

theorem mergeTxType_noChange (req : UpdateTransactionRequest) (s : Transaction × Bool)
    (h : req.txType = none ∨ req.txType = some s.1.txType) : mergeTxType req s = s := by
  rcases h with h | h <;> simp [mergeTxType, h]

theorem mergeTxCategory_noChange (req : UpdateTransactionRequest) (s : Transaction × Bool)
    (h : req.categoryID = none ∨ req.categoryID = some s.1.categoryID) :
    mergeTxCategory req s = s := by
  rcases h with h | h <;> simp [mergeTxCategory, h]

theorem mergeTxProperty_noChange (req : UpdateTransactionRequest) (s : Transaction × Bool)
    (h : req.propertyID = none ∨ req.propertyID = s.1.propertyID) :
    mergeTxProperty req s = s := by
  rcases h with h | h
  · simp [mergeTxProperty, h]
  · cases hd : s.1.propertyID with
    | none => rw [hd] at h; simp [mergeTxProperty, h]
    | some cur => rw [hd] at h; simp [mergeTxProperty, h, hd]

/-- A partial-update request whose fields are all nil or all equal to the
stored values leaves the merge unchanged and unmarked. -/
theorem mergeTransaction_noChange (req : UpdateTransactionRequest) (t0 : Transaction)
    (h1 : req.amount = none ∨ req.amount = some t0.amount)
    (h2 : req.transactionDate = none ∨ req.transactionDate = some t0.transactionDate)
    (h3 : req.description = none ∨ req.description = t0.description)
    (h4 : req.txType = none ∨ req.txType = some t0.txType)
    (h5 : req.categoryID = none ∨ req.categoryID = some t0.categoryID)
    (h6 : req.propertyID = none ∨ req.propertyID = t0.propertyID) :
    mergeTransaction req t0 = (t0, false) := by
  unfold mergeTransaction
  rw [mergeTxAmount_noChange req _ h1, mergeTxDate_noChange req _ h2,
    mergeTxDescription_noChange req _ h3, mergeTxType_noChange req _ h4,
    mergeTxCategory_noChange req _ h5, mergeTxProperty_noChange req _ h6]

theorem mergeTxAmount_txType (req : UpdateTransactionRequest) (s : Transaction × Bool) :
    (mergeTxAmount req s).1.txType = s.1.txType := by
  unfold mergeTxAmount
  cases req.amount <;> simp <;> split <;> simp

theorem mergeTxDate_txType (req : UpdateTransactionRequest) (s : Transaction × Bool) :
    (mergeTxDate req s).1.txType = s.1.txType := by
  unfold mergeTxDate
  cases req.transactionDate <;> simp <;> split <;> simp

theorem mergeTxDescription_txType (req : UpdateTransactionRequest) (s : Transaction × Bool) :
    (mergeTxDescription req s).1.txType = s.1.txType := by
  unfold mergeTxDescription
  cases req.description with
  | none => rfl
  | some dsc =>
      cases hd : s.1.description with
      | none => simp [hd]
      | some cur => simp only [hd]; split <;> simp

theorem mergeTxType_txType (req : UpdateTransactionRequest) (s : Transaction × Bool) :
    (mergeTxType req s).1.txType = (req.txType).getD s.1.txType := by
  unfold mergeTxType
  cases h : req.txType <;> simp
  split <;> simp_all

theorem mergeTxCategory_txType (req : UpdateTransactionRequest) (s : Transaction × Bool) :
    (mergeTxCategory req s).1.txType = s.1.txType := by
  unfold mergeTxCategory
  cases req.categoryID <;> simp <;> split <;> simp

theorem mergeTxProperty_txType (req : UpdateTransactionRequest) (s : Transaction × Bool) :
    (mergeTxProperty req s).1.txType = s.1.txType := by
  unfold mergeTxProperty
  cases req.propertyID with
  | none => rfl
  | some p =>
      cases hd : s.1.propertyID with
      | none => simp [hd]
      | some cur => simp only [hd]; split <;> simp

/-- The merged type is the supplied one when present, the stored one
otherwise. -/
theorem mergeTransaction_txType (req : UpdateTransactionRequest) (t0 : Transaction) :
    (mergeTransaction req t0).1.txType = (req.txType).getD t0.txType := by
  unfold mergeTransaction
  rw [mergeTxProperty_txType, mergeTxCategory_txType, mergeTxType_txType,
    mergeTxDescription_txType, mergeTxDate_txType, mergeTxAmount_txType]

theorem mergeCategoryName_noChange (req : UpdateCategoryRequest) (c : TransactionCategory)
    (h : req.name = none ∨ req.name = some c.name) : mergeCategoryName req c = (c, false) := by
  rcases h with h | h <;> simp [mergeCategoryName, h]

theorem mergeCategoryClassification_noChange (req : UpdateCategoryRequest)
    (s : TransactionCategory × Bool)
    (h : req.classification = none ∨ req.classification = some s.1.classification) :
    mergeCategoryClassification req s = .ok s := by
  rcases h with h | h <;> simp [mergeCategoryClassification, h]

theorem mergePropertyName_noChange (req : UpdatePropertyRequest) (p : Property)
    (h : req.name = none ∨ req.name = some p.name) : mergePropertyName req p = (p, false) := by
  rcases h with h | h <;> simp [mergePropertyName, h]

theorem mergePropertyAddress_noChange (req : UpdatePropertyRequest) (s : Property × Bool)
    (h : req.address = none ∨ req.address = s.1.address) : mergePropertyAddress req s = s := by
  rcases h with h | h
  · simp [mergePropertyAddress, h]
  · cases hd : s.1.address with
    | none => rw [hd] at h; simp [mergePropertyAddress, h]
    | some cur => rw [hd] at h; simp [mergePropertyAddress, h, hd]

/-- `updateCategory` reads the request only through the two merge steps. -/
theorem updateCategory_req_congr (col : List TransactionCategory) (id : String)
    (now : Nat) (r1 r2 : UpdateCategoryRequest)
    (h1 : mergeCategoryName r1 = mergeCategoryName r2)
    (h2 : mergeCategoryClassification r1 = mergeCategoryClassification r2) :
    updateCategory col id r1 now = updateCategory col id r2 now := by
  unfold updateCategory
  rw [h1, h2]

/-- `updateProperty` reads the request only through the two merge steps. -/
theorem updateProperty_req_congr (col : List Property) (id : String) (now : Nat)
    (r1 r2 : UpdatePropertyRequest)
    (h1 : mergePropertyName r1 = mergePropertyName r2)
    (h2 : mergePropertyAddress r1 = mergePropertyAddress r2) :
    updateProperty col id r1 now = updateProperty col id r2 now := by
  unfold updateProperty
  rw [h1, h2]

theorem mergeCategoryName_empty_of (req : UpdateCategoryRequest) (c : TransactionCategory)
    (h : (mergeCategoryName req c).1.name = "") : c.name = "" := by
  cases hr : req.name with
  | none => simp only [mergeCategoryName, hr] at h; exact h
  | some n =>
      simp only [mergeCategoryName, hr] at h
      by_cases hc : n ≠ "" ∧ n ≠ c.name
      · rw [if_pos hc] at h
        simp only at h
        exact absurd h hc.1
      · rw [if_neg hc] at h
        exact h

theorem mergeCategoryClassification_name_eq (req : UpdateCategoryRequest)
    (s x : TransactionCategory × Bool)
    (h : mergeCategoryClassification req s = .ok x) : x.1.name = s.1.name := by
  cases hr : req.classification with
  | none =>
      simp only [mergeCategoryClassification, hr, Except.ok.injEq] at h
      rw [← h]
  | some cl =>
      simp only [mergeCategoryClassification, hr] at h
      by_cases hc : cl ≠ "" ∧ cl ≠ s.1.classification
      · rw [if_pos hc] at h
        by_cases hc2 : cl ≠ incomeClassification ∧ cl ≠ expenseClassification
        · rw [if_pos hc2] at h; cases h
        · rw [if_neg hc2] at h
          simp only [Except.ok.injEq] at h
          rw [← h]
      · rw [if_neg hc] at h
        simp only [Except.ok.injEq] at h
        rw [← h]

theorem mergePropertyName_empty_of (req : UpdatePropertyRequest) (p : Property)
    (h : (mergePropertyName req p).1.name = "") : p.name = "" := by
  cases hr : req.name with
  | none => simp only [mergePropertyName, hr] at h; exact h
  | some n =>
      simp only [mergePropertyName, hr] at h
      by_cases hc : n ≠ "" ∧ n ≠ p.name
      · rw [if_pos hc] at h
        simp only at h
        exact absurd h hc.1
      · rw [if_neg hc] at h
        exact h

theorem mergePropertyAddress_name_eq (req : UpdatePropertyRequest) (s : Property × Bool) :
    (mergePropertyAddress req s).1.name = s.1.name := by
  unfold mergePropertyAddress
  cases req.address with
  | none => rfl
  | some a =>
      cases hd : s.1.address with
      | none => simp [hd]
      | some cur => simp only [hd]; split <;> simp

/-- Any successful `updateCategory` response carries the merged name of the
fetched record. -/
theorem updateCategory_result_name (col : List TransactionCategory) (id : String)
    (req : UpdateCategoryRequest) (now : Nat) (resp : CategoryResponse)
    (h : (updateCategory col id req now).result = .ok resp) :
    ∃ c, categoryRepoGetByID col id = .ok c ∧
      resp.name = (mergeCategoryName req c).1.name := by
  unfold updateCategory at h
  by_cases hid : isValidUUID id = true
  · rw [hid] at h
    simp only [Bool.not_true, Bool.false_eq_true, if_false] at h
    cases hget : categoryRepoGetByID col id with
    | error e =>
        rw [hget] at h
        dsimp only at h
        split at h <;> simp at h
    | ok c =>
        rw [hget] at h
        dsimp only at h
        refine ⟨c, rfl, ?_⟩
        cases hm : mergeCategoryClassification req (mergeCategoryName req c) with
        | error e => rw [hm] at h; simp at h
        | ok x =>
            rw [hm] at h
            obtain ⟨cat2, upd⟩ := x
            have hx : cat2.name = (mergeCategoryName req c).1.name :=
              mergeCategoryClassification_name_eq req _ _ hm
            dsimp only at h
            split at h
            · cases habort : categoryUniquenessAbort col id cat2 c with
              | some e => rw [habort] at h; simp at h
              | none =>
                  rw [habort] at h
                  cases hupd : categoryRepoUpdate col { cat2 with updatedAt := now } now with
                  | error e => rw [hupd] at h; simp at h
                  | ok col2 =>
                      rw [hupd] at h
                      simp only [Except.ok.injEq] at h
                      rw [← h]
                      exact hx
            · simp only [Except.ok.injEq] at h
              rw [← h]
              exact hx
  · simp only [Bool.not_eq_true] at hid
    rw [hid] at h
    simp at h

/-- Any successful `updateProperty` response carries the merged name of the
fetched record. -/
theorem updateProperty_result_name (col : List Property) (id : String)
    (req : UpdatePropertyRequest) (now : Nat) (resp : PropertyResponse)
    (h : (updateProperty col id req now).result = .ok resp) :
    ∃ p, propertyRepoGetByID col id = .ok p ∧
      resp.name = (mergePropertyName req p).1.name := by
  unfold updateProperty at h
  by_cases hid : isValidUUID id = true
  · rw [hid] at h
    simp only [Bool.not_true, Bool.false_eq_true, if_false] at h
    cases hget : propertyRepoGetByID col id with
    | error e =>
        rw [hget] at h
        dsimp only at h
        simp at h
    | ok p =>
        rw [hget] at h
        dsimp only at h
        refine ⟨p, rfl, ?_⟩
        have hx : (mergePropertyAddress req (mergePropertyName req p)).1.name =
            (mergePropertyName req p).1.name := mergePropertyAddress_name_eq req _
        cases hm : mergePropertyAddress req (mergePropertyName req p) with
        | mk prop2 upd =>
            rw [hm] at h hx
            dsimp only at h hx
            split at h
            · cases hupd : propertyRepoUpdate col { prop2 with updatedAt := now } now with
              | error e => rw [hupd] at h; simp at h
              | ok col2 =>
                  rw [hupd] at h
                  simp only [Except.ok.injEq] at h
                  rw [← h]
                  exact hx
            · simp only [Except.ok.injEq] at h
              rw [← h]
              exact hx
  · simp only [Bool.not_eq_true] at hid
    rw [hid] at h
    simp at h

/-! ### Claim theorems. -/

/-- Claim C2 (divergence shown at the failing input): creating a category
whose (name, classification) pair is not yet present is supposed to succeed
with a new id, but the wired composition returns an `Internal` error and
performs no write — the service recognizes `sql.ErrNoRows` as the
not-found sentinel while the firestore repository signals not-found with
`ErrCategoryNotFound`.  The `Conflict` half of the claim does hold: a
duplicate pair is rejected without a write. -/
theorem createCategory_sentinel_mismatch :
    createCategory [] ⟨"Rent", "income"⟩ uuidA 5 =
      ⟨.error (errInternal ("checking for existing category")), [], 0⟩ ∧
    createCategory [catRentIncome] ⟨"Rent", "income"⟩ uuidB 5 =
      ⟨.error (errConflict ("Category with given name and classification already exists.")),
        [catRentIncome], 0⟩ := by
  exact ⟨rfl, rfl⟩

/-- Claim C3 (divergence shown at the failing input): for a well-formed id
absent from the store, `GetCategoryByID` and `DeleteCategory` return an
`Internal` error instead of `NotFound`, because the service tests the
repository error against `sql.ErrNoRows` while the repository returns
`ErrCategoryNotFound`.  The property and transaction services do map the
missing record to `NotFound` as the claim states. -/
theorem getCategoryByID_missing_internal :
    (getCategoryByID [] uuidA).result =
      .error (errInternal ("getting category by ID " ++ uuidA)) ∧
    (deleteCategory [] uuidA).result =
      .error (errInternal ("checking category before delete")) ∧
    (getPropertyByID [] uuidA).result = .error (errNotFound ("Property") uuidA) ∧
    (deleteProperty [] uuidA).result = .error (errNotFound ("Property") uuidA) ∧
    (getTransactionByID [] uuidA).result = .error (errNotFound ("Transaction") uuidA) := by
  exact ⟨rfl, rfl, rfl, rfl, rfl⟩

/-- Claim C6, counterexample: `PropertyService.CreateProperty` performs no
name validation at all — a request with an empty name succeeds at the
service and writes the property to the store, contradicting the claim that
the service fails with a `Validation` error and performs no write. -/
theorem createProperty_empty_name_accepted :
    createProperty [] ⟨"", none⟩ uuidA 5 =
      ⟨.ok (toPropertyResponse ⟨uuidA, "", none, 5, 5⟩), [⟨uuidA, "", none, 5, 5⟩], 1⟩ := by
  exact rfl

/-- Claim C8, counterexample: the feature-layer store `List` implementations
perform no limit validation — a limit of 150 (outside `[1,100]`) succeeds on
all three collections instead of failing with `InvalidLimit`. -/
theorem featureList_accepts_out_of_range_limit :
    categoryRepoList [] none 150 0 = .ok ([], 0) ∧
    propertyRepoList [] 150 0 = .ok ([], 0) ∧
    transactionRepoList [] none none none none none 150 0 = .ok ([], 0) := by
  exact ⟨rfl, rfl, rfl⟩

/-- Claim C8, amended: only the legacy property store `GetProperties`
validates the page size, failing with `ErrInvalidLimit` for any limit
outside `[1, 100]` regardless of cursor and store contents; the
feature-layer `List` implementations for categories, properties and
transactions never fail, whatever limit and offset they are given. -/
theorem storeList_limit_validation :
    (∀ (col : List LegacyProperty) (limit : Int) (cursor : String),
      limit < 1 ∨ limit > 100 →
        legacyGetProperties col limit cursor = .error .invalidLimit) ∧
    (∀ (col : List TransactionCategory) (cf : Option String) (limit offset : Int),
      ∃ page total, categoryRepoList col cf limit offset = .ok (page, total)) ∧
    (∀ (col : List Property) (limit offset : Int),
      ∃ page total, propertyRepoList col limit offset = .ok (page, total)) ∧
    (∀ (col : List Transaction) (pf tyf cf : Option String) (sd ed : Option Nat)
        (limit offset : Int),
      ∃ page total, transactionRepoList col pf tyf cf sd ed limit offset = .ok (page, total)) := by
  refine ⟨?_, ?_, ?_, ?_⟩
  · intro col limit cursor h
    unfold legacyGetProperties
    rw [if_pos h]
  · intro col cf limit offset
    exact ⟨_, _, rfl⟩
  · intro col limit offset
    exact ⟨_, _, rfl⟩
  · intro col pf tyf cf sd ed limit offset
    exact ⟨_, _, rfl⟩

/-- Witness for the limit-validation theorem at limit 0. -/
theorem storeList_limit_validation_witness :
    ((0 : Int) < 1 ∨ (0 : Int) > 100) ∧
    legacyGetProperties [] 0 "" = .error .invalidLimit := by
  exact ⟨Or.inl (by decide), storeList_limit_validation.1 [] 0 "" (Or.inl (by decide))⟩

/-- Claim C6, amended: name validation for property creation lives in the
handler struct validation, not in the service.  A request whose name is
empty or longer than 255 characters is rejected there with a `Validation`
error whose details name the `Name` field, before any service call and with
no store write; a request that passes validation is persisted with the name
unchanged — in particular a whitespace-only name passes and is persisted,
so a created property name may be empty after trimming. -/
theorem propertyName_validated_in_handler :
    (∀ (col : List Property) (req : CreatePropertyRequest) (newId : String) (now : Nat),
      ((req.name = "" ∨ 255 < req.name.length) →
        (∃ m rest, validateCreatePropertyRequest req = ("Name", m) :: rest) ∧
        (createPropertyHandler col req newId now).result =
          .error (errValidation ("Validation failed") (validateCreatePropertyRequest req)) ∧
        (createPropertyHandler col req newId now).store = col ∧
        (createPropertyHandler col req newId now).writes = 0) ∧
      (validateCreatePropertyRequest req = [] →
        createPropertyHandler col req newId now =
          ⟨.ok (toPropertyResponse ⟨newId, req.name, req.address, now, now⟩),
            (propertyRepoCreate col ⟨newId, req.name, req.address, now, now⟩ now).2, 1⟩)) ∧
    createPropertyHandler [] ⟨" ", none⟩ uuidA 5 =
      ⟨.ok (toPropertyResponse ⟨uuidA, " ", none, 5, 5⟩), [⟨uuidA, " ", none, 5, 5⟩], 1⟩ := by
  refine ⟨?_, rfl⟩
  intro col req newId now
  constructor
  · intro h
    have hv : ∃ m, validateCreatePropertyRequest req =
        ("Name", m) :: (match req.address with
          | some a =>
              if a.length > 500 then [("Address", "Address must not exceed 500 characters.")]
              else []
          | none => []) := by
      rcases h with h | h
      · exact ⟨"Name is required.", by simp [validateCreatePropertyRequest, h]⟩
      · have hne : req.name ≠ "" := by
          intro he
          rw [he] at h
          simp at h
        exact ⟨"Name must not exceed 255 characters.",
          by simp [validateCreatePropertyRequest, hne, h]⟩
    obtain ⟨m, hm⟩ := hv
    have hcons : validateCreatePropertyRequest req ≠ [] := by rw [hm]; simp
    refine ⟨⟨m, _, hm⟩, ?_, ?_, ?_⟩ <;>
      simp [createPropertyHandler, hcons]
  · intro h
    simp [createPropertyHandler, h, createProperty]

/-- Witness for the handler-validation theorem at the empty name. -/
theorem propertyName_validated_in_handler_witness :
    (("" : String) = "" ∨ 255 < ("" : String).length) ∧
    ((∃ m rest,
        validateCreatePropertyRequest ⟨"", none⟩ = ("Name", m) :: rest) ∧
      (createPropertyHandler [] (⟨"", none⟩ : CreatePropertyRequest) uuidA 5).result =
        .error (errValidation ("Validation failed") (validateCreatePropertyRequest ⟨"", none⟩)) ∧
      (createPropertyHandler [] (⟨"", none⟩ : CreatePropertyRequest) uuidA 5).store = [] ∧
      (createPropertyHandler [] (⟨"", none⟩ : CreatePropertyRequest) uuidA 5).writes = 0) := by
  exact ⟨Or.inl rfl,
    (propertyName_validated_in_handler.1 [] ⟨"", none⟩ uuidA 5).1 (Or.inl rfl)⟩

/-- Claim C4: for each of the three entities, a service `Update` on an
existing well-formed id whose optional fields are all nil (or supplied but
equal to the stored values) performs no store write and returns the stored
entity unchanged, `updatedAt` included. -/
theorem update_noChange_noWrite :
    (∀ (col : List TransactionCategory) (id : String) (req : UpdateCategoryRequest)
        (now : Nat) (c : TransactionCategory),
      isValidUUID id = true →
      categoryRepoGetByID col id = .ok c →
      (req.name = none ∨ req.name = some c.name) →
      (req.classification = none ∨ req.classification = some c.classification) →
      updateCategory col id req now = ⟨.ok (toCategoryResponse c), col, 0⟩) ∧
    (∀ (col : List Property) (id : String) (req : UpdatePropertyRequest)
        (now : Nat) (p : Property),
      isValidUUID id = true →
      propertyRepoGetByID col id = .ok p →
      (req.name = none ∨ req.name = some p.name) →
      (req.address = none ∨ req.address = p.address) →
      updateProperty col id req now = ⟨.ok (toPropertyResponse p), col, 0⟩) ∧
    (∀ (cats : List TransactionCategory) (txs : List Transaction) (id : String)
        (req : UpdateTransactionRequest) (now : Nat) (t0 : Transaction),
      isValidUUID id = true →
      transactionRepoGetByID txs id = .ok t0 →
      (req.amount = none ∨ req.amount = some t0.amount) →
      (req.transactionDate = none ∨ req.transactionDate = some t0.transactionDate) →
      (req.description = none ∨ req.description = t0.description) →
      (req.txType = none ∨ req.txType = some t0.txType) →
      (req.categoryID = none ∨ req.categoryID = some t0.categoryID) →
      (req.propertyID = none ∨ req.propertyID = t0.propertyID) →
      updateTransaction cats txs id req now = ⟨.ok (toTransactionResponse t0), txs, 0⟩) := by
  refine ⟨?_, ?_, ?_⟩
  · intro col id req now c hid hget hn hcl
    unfold updateCategory
    rw [hid, hget]
    simp only [Bool.not_true, Bool.false_eq_true, if_false]
    rw [mergeCategoryName_noChange req c hn,
      mergeCategoryClassification_noChange req (c, false) hcl]
    simp
  · intro col id req now p hid hget hn ha
    unfold updateProperty
    rw [hid, hget]
    simp only [Bool.not_true, Bool.false_eq_true, if_false]
    rw [mergePropertyName_noChange req p hn, mergePropertyAddress_noChange req (p, false) ha]
    simp
  · intro cats txs id req now t0 hid hget h1 h2 h3 h4 h5 h6
    unfold updateTransaction
    rw [hid, hget]
    simp only [Bool.not_true, Bool.false_eq_true, if_false]
    rw [mergeTransaction_noChange req t0 h1 h2 h3 h4 h5 h6]
    simp

/-- Witness for the no-change update theorem on each entity. -/
theorem update_noChange_noWrite_witness :
    updateCategory [catRentIncome] uuidA ⟨none, none⟩ 99 =
      ⟨.ok (toCategoryResponse catRentIncome), [catRentIncome], 0⟩ ∧
    updateProperty [⟨uuidA, "Flat 1", none, 1, 1⟩] uuidA ⟨none, none⟩ 99 =
      ⟨.ok (toPropertyResponse ⟨uuidA, "Flat 1", none, 1, 1⟩), [⟨uuidA, "Flat 1", none, 1, 1⟩], 0⟩ ∧
    updateTransaction [catRentIncome] [⟨uuidB, 1200, 7, none, "income", uuidA, none, 2, 2⟩]
        uuidB ⟨none, none, none, none, none, none⟩ 99 =
      ⟨.ok (toTransactionResponse ⟨uuidB, 1200, 7, none, "income", uuidA, none, 2, 2⟩),
        [⟨uuidB, 1200, 7, none, "income", uuidA, none, 2, 2⟩], 0⟩ := by
  refine ⟨?_, ?_, ?_⟩
  · exact update_noChange_noWrite.1 [catRentIncome] uuidA ⟨none, none⟩ 99 catRentIncome
      (by decide) (by decide) (Or.inl rfl) (Or.inl rfl)
  · exact update_noChange_noWrite.2.1 [⟨uuidA, "Flat 1", none, 1, 1⟩] uuidA ⟨none, none⟩ 99
      ⟨uuidA, "Flat 1", none, 1, 1⟩ (by decide) (by decide) (Or.inl rfl) (Or.inl rfl)
  · exact update_noChange_noWrite.2.2 [catRentIncome]
      [⟨uuidB, 1200, 7, none, "income", uuidA, none, 2, 2⟩] uuidB
      ⟨none, none, none, none, none, none⟩ 99 ⟨uuidB, 1200, 7, none, "income", uuidA, none, 2, 2⟩
      (by decide) (by decide) (Or.inl rfl) (Or.inl rfl) (Or.inl rfl) (Or.inl rfl)
      (Or.inl rfl) (Or.inl rfl)

/-- Claim C9: in the category and property updates, a name (or
classification) supplied as a pointer to the empty string behaves exactly
like a field that was not provided — the whole call is equal to the call
with that field nil — and consequently a successful update can only return
an empty name when the stored record already had one: the name can never be
set to the empty string through `Update`. -/
theorem emptyStringPointer_treated_as_nil :
    (∀ (col : List TransactionCategory) (id : String) (cl : Option String) (now : Nat),
      updateCategory col id ⟨some "", cl⟩ now = updateCategory col id ⟨none, cl⟩ now) ∧
    (∀ (col : List TransactionCategory) (id : String) (nm : Option String) (now : Nat),
      updateCategory col id ⟨nm, some ""⟩ now = updateCategory col id ⟨nm, none⟩ now) ∧
    (∀ (col : List Property) (id : String) (ad : Option String) (now : Nat),
      updateProperty col id ⟨some "", ad⟩ now = updateProperty col id ⟨none, ad⟩ now) ∧
    (∀ (col : List TransactionCategory) (id : String) (req : UpdateCategoryRequest)
        (now : Nat) (c : TransactionCategory) (resp : CategoryResponse),
      categoryRepoGetByID col id = .ok c →
      (updateCategory col id req now).result = .ok resp →
      resp.name = "" → c.name = "") ∧
    (∀ (col : List Property) (id : String) (req : UpdatePropertyRequest)
        (now : Nat) (p : Property) (resp : PropertyResponse),
      propertyRepoGetByID col id = .ok p →
      (updateProperty col id req now).result = .ok resp →
      resp.name = "" → p.name = "") := by
  refine ⟨?_, ?_, ?_, ?_, ?_⟩
  · intro col id cl now
    refine updateCategory_req_congr col id now _ _ ?_ rfl
    funext c
    simp [mergeCategoryName]
  · intro col id nm now
    refine updateCategory_req_congr col id now _ _ rfl ?_
    funext s
    simp [mergeCategoryClassification]
  · intro col id ad now
    refine updateProperty_req_congr col id now _ _ ?_ rfl
    funext p
    simp [mergePropertyName]
  · intro col id req now c resp hget hres hempty
    obtain ⟨c2, hget2, hname⟩ := updateCategory_result_name col id req now resp hres
    rw [hget] at hget2
    cases hget2
    exact mergeCategoryName_empty_of req c (by rw [← hname]; exact hempty)
  · intro col id req now p resp hget hres hempty
    obtain ⟨p2, hget2, hname⟩ := updateProperty_result_name col id req now resp hres
    rw [hget] at hget2
    cases hget2
    exact mergePropertyName_empty_of req p (by rw [← hname]; exact hempty)

/-- Witness for the empty-string-pointer theorem. -/
theorem emptyStringPointer_treated_as_nil_witness :
    updateCategory [catRentIncome] uuidA ⟨some "", none⟩ 5 =
      updateCategory [catRentIncome] uuidA ⟨none, none⟩ 5 ∧
    updateProperty [] uuidA ⟨some "", none⟩ 5 = updateProperty [] uuidA ⟨none, none⟩ 5 ∧
    (⟨uuidA, "", "income", 1, 1⟩ : TransactionCategory).name = "" ∧
    (⟨uuidA, "", none, 1, 1⟩ : Property).name = "" := by
  refine ⟨emptyStringPointer_treated_as_nil.1 [catRentIncome] uuidA none 5,
    emptyStringPointer_treated_as_nil.2.2.1 [] uuidA none 5, ?_, ?_⟩
  · exact emptyStringPointer_treated_as_nil.2.2.2.1 [⟨uuidA, "", "income", 1, 1⟩] uuidA
      ⟨none, none⟩ 5 ⟨uuidA, "", "income", 1, 1⟩
      (toCategoryResponse ⟨uuidA, "", "income", 1, 1⟩) (by decide) (by decide) (by decide)
  · exact emptyStringPointer_treated_as_nil.2.2.2.2 [⟨uuidA, "", none, 1, 1⟩] uuidA
      ⟨none, none⟩ 5 ⟨uuidA, "", none, 1, 1⟩
      (toPropertyResponse ⟨uuidA, "", none, 1, 1⟩) (by decide) (by decide) (by decide)

/-- Claim C10: every firestore repository `Update` overwrites the entity
`UpdatedAt` with the repository clock immediately before the write: after a
successful update the persisted document is the input with `updatedAt`
equal to the store-write time, and the call is insensitive to whatever
`updatedAt` the caller had set. -/
theorem repoUpdate_stamps_updatedAt :
    (∀ (col col2 : List TransactionCategory) (c : TransactionCategory) (now : Nat),
      categoryRepoUpdate col c now = .ok col2 →
        fsGet (·.id) col2 c.id = some { c with updatedAt := now }) ∧
    (∀ (col : List TransactionCategory) (c : TransactionCategory) (t now : Nat),
      categoryRepoUpdate col { c with updatedAt := t } now = categoryRepoUpdate col c now) ∧
    (∀ (col col2 : List Property) (p : Property) (now : Nat),
      propertyRepoUpdate col p now = .ok col2 →
        fsGet (·.id) col2 p.id = some { p with updatedAt := now }) ∧
    (∀ (col : List Property) (p : Property) (t now : Nat),
      propertyRepoUpdate col { p with updatedAt := t } now = propertyRepoUpdate col p now) ∧
    (∀ (col col2 : List Transaction) (tx : Transaction) (now : Nat),
      transactionRepoUpdate col tx now = .ok col2 →
        fsGet (·.id) col2 tx.id = some { tx with updatedAt := now }) ∧
    (∀ (col : List Transaction) (tx : Transaction) (t now : Nat),
      transactionRepoUpdate col { tx with updatedAt := t } now =
        transactionRepoUpdate col tx now) := by
  refine ⟨?_, ?_, ?_, ?_, ?_, ?_⟩
  · intro col col2 c now h
    unfold categoryRepoUpdate at h
    split at h
    · cases h
    · simp only [Except.ok.injEq] at h
      rw [← h]
      exact fsGet_fsSet (·.id) col { c with updatedAt := now }
  · intro col c t now
    rfl
  · intro col col2 p now h
    unfold propertyRepoUpdate at h
    split at h
    · cases h
    · simp only [Except.ok.injEq] at h
      rw [← h]
      exact fsGet_fsSet (·.id) col { p with updatedAt := now }
  · intro col p t now
    rfl
  · intro col col2 tx now h
    unfold transactionRepoUpdate at h
    split at h
    · cases h
    · simp only [Except.ok.injEq] at h
      rw [← h]
      exact fsGet_fsSet (·.id) col { tx with updatedAt := now }
  · intro col tx t now
    rfl

/-- Claim C5: every service `List` replaces `page ≤ 0` by 1, `pageSize ≤ 0`
by 20, and `pageSize > 100` by 100; invokes the store with
`limit = pageSize` and `offset = (page - 1) * pageSize`; returns metadata
whose `currentPage` and `pageSize` are the normalized values and whose
`totalPages` is 0 for an empty result set and otherwise the exact ceiling
of `totalItems / pageSize`; and consequently `List(page ≤ 0, pageSize ≤ 0)`
is the same call as `List(1, 20)` and `List(pageSize = 500)` the same call
as `List(pageSize = 100)`. -/
theorem serviceList_pagination :
    (∀ (col : List TransactionCategory) (cf : Option String) (page pageSize : Int),
      ((listCategories col cf page pageSize).repoLimit =
          (if pageSize ≤ 0 then 20 else if pageSize > 100 then 100 else pageSize) ∧
        (listCategories col cf page pageSize).repoOffset =
          ((if page ≤ 0 then 1 else page) - 1) *
            (if pageSize ≤ 0 then 20 else if pageSize > 100 then 100 else pageSize)) ∧
      (∃ data pg, (listCategories col cf page pageSize).result = .ok (data, pg) ∧
        pg.currentPage = (if page ≤ 0 then 1 else page) ∧
        pg.pageSize = (if pageSize ≤ 0 then 20 else if pageSize > 100 then 100 else pageSize) ∧
        0 ≤ pg.totalItems ∧
        (pg.totalItems = 0 → pg.totalPages = 0) ∧
        (0 < pg.totalItems →
          pg.totalItems ≤ pg.totalPages * pg.pageSize ∧
          (pg.totalPages - 1) * pg.pageSize < pg.totalItems)) ∧
      (page ≤ 0 → pageSize ≤ 0 →
        listCategories col cf page pageSize = listCategories col cf 1 20) ∧
      listCategories col cf page 500 = listCategories col cf page 100) ∧
    (∀ (col : List Property) (page pageSize : Int),
      ((listProperties col page pageSize).repoLimit =
          (if pageSize ≤ 0 then 20 else if pageSize > 100 then 100 else pageSize) ∧
        (listProperties col page pageSize).repoOffset =
          ((if page ≤ 0 then 1 else page) - 1) *
            (if pageSize ≤ 0 then 20 else if pageSize > 100 then 100 else pageSize)) ∧
      (∃ data pg, (listProperties col page pageSize).result = .ok (data, pg) ∧
        pg.currentPage = (if page ≤ 0 then 1 else page) ∧
        pg.pageSize = (if pageSize ≤ 0 then 20 else if pageSize > 100 then 100 else pageSize) ∧
        0 ≤ pg.totalItems ∧
        (pg.totalItems = 0 → pg.totalPages = 0) ∧
        (0 < pg.totalItems →
          pg.totalItems ≤ pg.totalPages * pg.pageSize ∧
          (pg.totalPages - 1) * pg.pageSize < pg.totalItems)) ∧
      (page ≤ 0 → pageSize ≤ 0 →
        listProperties col page pageSize = listProperties col 1 20) ∧
      listProperties col page 500 = listProperties col page 100) ∧
    (∀ (txs : List Transaction) (pf tyf cf : Option String) (sd ed : Option Nat)
        (page pageSize : Int),
      ((listTransactions txs pf tyf cf sd ed page pageSize).repoLimit =
          (if pageSize ≤ 0 then 20 else if pageSize > 100 then 100 else pageSize) ∧
        (listTransactions txs pf tyf cf sd ed page pageSize).repoOffset =
          ((if page ≤ 0 then 1 else page) - 1) *
            (if pageSize ≤ 0 then 20 else if pageSize > 100 then 100 else pageSize)) ∧
      (∃ data pg, (listTransactions txs pf tyf cf sd ed page pageSize).result = .ok (data, pg) ∧
        pg.currentPage = (if page ≤ 0 then 1 else page) ∧
        pg.pageSize = (if pageSize ≤ 0 then 20 else if pageSize > 100 then 100 else pageSize) ∧
        0 ≤ pg.totalItems ∧
        (pg.totalItems = 0 → pg.totalPages = 0) ∧
        (0 < pg.totalItems →
          pg.totalItems ≤ pg.totalPages * pg.pageSize ∧
          (pg.totalPages - 1) * pg.pageSize < pg.totalItems)) ∧
      (page ≤ 0 → pageSize ≤ 0 →
        listTransactions txs pf tyf cf sd ed page pageSize =
          listTransactions txs pf tyf cf sd ed 1 20) ∧
      listTransactions txs pf tyf cf sd ed page 500 =
        listTransactions txs pf tyf cf sd ed page 100) := by
  refine ⟨?_, ?_, ?_⟩
  · intro col cf page pageSize
    refine ⟨⟨rfl, rfl⟩,
      ⟨_, _, rfl, rfl, rfl, (paginationInfo_spec _ pageSize).1,
        (paginationInfo_spec _ pageSize).2.1, (paginationInfo_spec _ pageSize).2.2⟩, ?_, ?_⟩
    · intro h1 h2
      simp only [listCategories, defaultServicePageSize, defaultServicePageNum, maxServicePageSize]
      rw [if_pos h1, if_pos h2]
      norm_num
    · simp only [listCategories, defaultServicePageSize, defaultServicePageNum, maxServicePageSize]
      norm_num
  · intro col page pageSize
    refine ⟨⟨rfl, rfl⟩,
      ⟨_, _, rfl, rfl, rfl, (paginationInfo_spec _ pageSize).1,
        (paginationInfo_spec _ pageSize).2.1, (paginationInfo_spec _ pageSize).2.2⟩, ?_, ?_⟩
    · intro h1 h2
      simp only [listProperties, defaultServicePageSize, defaultServicePageNum, maxServicePageSize]
      rw [if_pos h1, if_pos h2]
      norm_num
    · simp only [listProperties, defaultServicePageSize, defaultServicePageNum, maxServicePageSize]
      norm_num
  · intro txs pf tyf cf sd ed page pageSize
    refine ⟨⟨rfl, rfl⟩,
      ⟨_, _, rfl, rfl, rfl, (paginationInfo_spec _ pageSize).1,
        (paginationInfo_spec _ pageSize).2.1, (paginationInfo_spec _ pageSize).2.2⟩, ?_, ?_⟩
    · intro h1 h2
      simp only [listTransactions, defaultServicePageSize, defaultServicePageNum, maxServicePageSize]
      rw [if_pos h1, if_pos h2]
      norm_num
    · simp only [listTransactions, defaultServicePageSize, defaultServicePageNum, maxServicePageSize]
      norm_num

/-- Witness for the pagination theorem at `page = 0`, `pageSize = 0`. -/
theorem serviceList_pagination_witness :
    ((0 : Int) ≤ 0) ∧
    listCategories [] none 0 0 = listCategories [] none 1 20 ∧
    listProperties [] 0 0 = listProperties [] 1 20 ∧
    listTransactions [] none none none none none 0 0 =
      listTransactions [] none none none none none 1 20 := by
  refine ⟨le_refl 0, ?_, ?_, ?_⟩
  · exact (serviceList_pagination.1 [] none 0 0).2.2.1 (by decide) (by decide)
  · exact (serviceList_pagination.2.1 [] 0 0).2.2.1 (by decide) (by decide)
  · exact (serviceList_pagination.2.2 [] none none none none none 0 0).2.2.1
      (by decide) (by decide)

/-- Claim C1: for every `CreateTransaction`, and for every
`UpdateTransaction` in which the category or type field is supplied (given
that something changed), a missing category or a type differing from the
category classification fails with a `Validation` error and performs no
store write; and every write these operations do perform is of a
transaction whose type equals the classification of its referenced
category as read at that moment.  The type values are the two the DTO
validation (`oneof=income expense`) admits. -/
theorem transactionType_matches_classification :
    (∀ (cats : List TransactionCategory) (txs : List Transaction)
        (req : CreateTransactionRequest) (newId : String) (now : Nat),
      (req.txType = incomeTransaction ∨ req.txType = expenseTransaction) →
      (∀ e, categoryRepoGetByID cats req.categoryID = .error e →
        createTransaction cats txs req newId now =
          ⟨.error (errValidation ("Validation failed for categoryId.")
            [("categoryId", "Category not found or invalid.")]), txs, 0⟩) ∧
      (∀ category, categoryRepoGetByID cats req.categoryID = .ok category →
        category.classification ≠ req.txType →
        createTransaction cats txs req newId now =
          ⟨.error (errValidation ("Transaction type does not match category classification.")
            [("type", "Type mismatch with category classification.")]), txs, 0⟩) ∧
      ((createTransaction cats txs req newId now).writes ≠ 0 →
        ∃ category, categoryRepoGetByID cats req.categoryID = .ok category ∧
          category.classification = req.txType)) ∧
    (∀ (cats : List TransactionCategory) (txs : List Transaction) (id : String)
        (req : UpdateTransactionRequest) (now : Nat) (t0 : Transaction),
      isValidUUID id = true →
      transactionRepoGetByID txs id = .ok t0 →
      (∀ ty, req.txType = some ty → (ty = incomeTransaction ∨ ty = expenseTransaction)) →
      (req.txType = none → (t0.txType = incomeTransaction ∨ t0.txType = expenseTransaction)) →
      (mergeTransaction req t0).2 = true →
      (req.categoryID ≠ none ∨ req.txType ≠ none) →
      (∀ e, categoryRepoGetByID cats (mergeTransaction req t0).1.categoryID = .error e →
        updateTransaction cats txs id req now =
          ⟨.error (errValidation ("Validation failed for categoryId.")
            [("categoryId", "Category not found or invalid.")]), txs, 0⟩) ∧
      (∀ category,
        categoryRepoGetByID cats (mergeTransaction req t0).1.categoryID = .ok category →
        category.classification ≠ (mergeTransaction req t0).1.txType →
        updateTransaction cats txs id req now =
          ⟨.error (errValidation ("Transaction type does not match category classification.")
            [("type", "Type mismatch with category classification.")]), txs, 0⟩) ∧
      ((updateTransaction cats txs id req now).writes ≠ 0 →
        ∃ category,
          categoryRepoGetByID cats (mergeTransaction req t0).1.categoryID = .ok category ∧
          category.classification = (mergeTransaction req t0).1.txType)) := by
  constructor
  · intro cats txs req newId now hty
    have part1 : ∀ e, categoryRepoGetByID cats req.categoryID = .error e →
        createTransaction cats txs req newId now =
          ⟨.error (errValidation ("Validation failed for categoryId.")
            [("categoryId", "Category not found or invalid.")]), txs, 0⟩ := by
      intro e herr
      unfold createTransaction
      rw [herr]
    have part2 : ∀ category, categoryRepoGetByID cats req.categoryID = .ok category →
        category.classification ≠ req.txType →
        createTransaction cats txs req newId now =
          ⟨.error (errValidation ("Transaction type does not match category classification.")
            [("type", "Type mismatch with category classification.")]), txs, 0⟩ := by
      intro category hok hne
      unfold createTransaction
      rw [hok]
      dsimp only
      rw [if_pos ((classificationMismatch_iff req.txType category.classification hty).mpr hne)]
    refine ⟨part1, part2, ?_⟩
    intro hw
    cases hcat : categoryRepoGetByID cats req.categoryID with
    | error e =>
        rw [part1 e hcat] at hw
        simp at hw
    | ok category =>
        by_cases hcl : category.classification = req.txType
        · exact ⟨category, rfl, hcl⟩
        · rw [part2 category hcat hcl] at hw
          simp at hw
  · intro cats txs id req now t0 hid hget hty1 hty2 hupd hgate
    have htym : (mergeTransaction req t0).1.txType = incomeTransaction ∨
        (mergeTransaction req t0).1.txType = expenseTransaction := by
      rw [mergeTransaction_txType]
      cases hr : req.txType with
      | none => exact hty2 hr
      | some ty => exact hty1 ty hr
    have part1 : ∀ e, categoryRepoGetByID cats (mergeTransaction req t0).1.categoryID = .error e →
        updateTransaction cats txs id req now =
          ⟨.error (errValidation ("Validation failed for categoryId.")
            [("categoryId", "Category not found or invalid.")]), txs, 0⟩ := by
      intro e herr
      unfold updateTransaction
      rw [hid]
      simp only [Bool.not_true, Bool.false_eq_true, if_false]
      rw [hget]
      dsimp only
      cases hm : mergeTransaction req t0 with
      | mk merged upd =>
          rw [hm] at hupd herr
          dsimp only at hupd herr
          rw [hupd]
          simp only [if_true]
          unfold transactionUpdateAbort
          rw [if_pos hgate, herr]
    have part2 : ∀ category,
        categoryRepoGetByID cats (mergeTransaction req t0).1.categoryID = .ok category →
        category.classification ≠ (mergeTransaction req t0).1.txType →
        updateTransaction cats txs id req now =
          ⟨.error (errValidation ("Transaction type does not match category classification.")
            [("type", "Type mismatch with category classification.")]), txs, 0⟩ := by
      intro category hok hne
      unfold updateTransaction
      rw [hid]
      simp only [Bool.not_true, Bool.false_eq_true, if_false]
      rw [hget]
      dsimp only
      cases hm : mergeTransaction req t0 with
      | mk merged upd =>
          rw [hm] at hupd hok hne htym
          dsimp only at hupd hok hne htym
          rw [hupd]
          simp only [if_true]
          unfold transactionUpdateAbort
          rw [if_pos hgate, hok]
          dsimp only
          rw [if_pos ((classificationMismatch_iff merged.txType category.classification
            htym).mpr hne)]
    refine ⟨part1, part2, ?_⟩
    intro hw
    cases hcat : categoryRepoGetByID cats (mergeTransaction req t0).1.categoryID with
    | error e =>
        rw [part1 e hcat] at hw
        simp at hw
    | ok category =>
        by_cases hcl : category.classification = (mergeTransaction req t0).1.txType
        · exact ⟨category, rfl, hcl⟩
        · rw [part2 category hcat hcl] at hw
          simp at hw

/-- Witness for the type/classification theorem: creating an `expense`
transaction against the income category fails `Validation` with no write,
and patching an existing income transaction to `expense` only fails the
same way, leaving the store untouched. -/
theorem transactionType_matches_classification_witness :
    createTransaction [catRentIncome] [] ⟨100, 1, none, "expense", uuidA, none⟩ uuidB 5 =
      ⟨.error (errValidation ("Transaction type does not match category classification.")
        [("type", "Type mismatch with category classification.")]), [], 0⟩ ∧
    updateTransaction [catRentIncome] [⟨uuidB, 1200, 7, none, "income", uuidA, none, 2, 2⟩]
        uuidB ⟨none, none, none, some "expense", none, none⟩ 9 =
      ⟨.error (errValidation ("Transaction type does not match category classification.")
        [("type", "Type mismatch with category classification.")]),
        [⟨uuidB, 1200, 7, none, "income", uuidA, none, 2, 2⟩], 0⟩ := by
  constructor
  · exact (transactionType_matches_classification.1 [catRentIncome] []
      ⟨100, 1, none, "expense", uuidA, none⟩ uuidB 5 (Or.inr rfl)).2.1
      catRentIncome (by decide) (by decide)
  · exact (transactionType_matches_classification.2 [catRentIncome]
      [⟨uuidB, 1200, 7, none, "income", uuidA, none, 2, 2⟩] uuidB
      ⟨none, none, none, some "expense", none, none⟩ 9
      ⟨uuidB, 1200, 7, none, "income", uuidA, none, 2, 2⟩
      (by decide) (by decide) (fun ty h => by cases h; exact Or.inr rfl)
      (fun h => nomatch h) (by decide) (Or.inr (by decide))).2.1
      catRentIncome (by decide) (by decide)

/-- Claim C7: a transaction store `List` page consists only of records
satisfying the conjunction of the supplied filters, is ordered by
transaction date descending with creation time descending as tiebreak, and
is the `offset`/`limit` window of an ordering of the whole filtered set;
the returned total is the number of matching records in the whole store,
independent of `limit` and `offset`. -/
theorem transactionList_filter_order_count :
    ∀ (txs : List Transaction) (pf tyf cf : Option String) (sd ed : Option Nat)
      (limit offset : Int) (page : List Transaction) (total : Nat),
      transactionRepoList txs pf tyf cf sd ed limit offset = .ok (page, total) →
        (∀ t ∈ page, txMatches pf tyf cf sd ed t = true ∧ t ∈ txs) ∧
        List.Sorted txOrder page ∧
        total = txs.countP (txMatches pf tyf cf sd ed) ∧
        (∃ sorted, sorted.Perm (txs.filter (txMatches pf tyf cf sd ed)) ∧
          List.Sorted txOrder sorted ∧
          page = (sorted.drop offset.toNat).take limit.toNat) ∧
        (∀ (limit2 offset2 : Int) (page2 : List Transaction) (total2 : Nat),
          transactionRepoList txs pf tyf cf sd ed limit2 offset2 = .ok (page2, total2) →
          total2 = total) := by
  intro txs pf tyf cf sd ed limit offset page total h
  unfold transactionRepoList at h
  simp only [Except.ok.injEq, Prod.mk.injEq] at h
  obtain ⟨hpage, htotal⟩ := h
  have hsub : List.Sublist page
      (List.insertionSort txOrder (txs.filter (txMatches pf tyf cf sd ed))) := by
    rw [← hpage]
    exact (List.take_sublist _ _).trans (List.drop_sublist _ _)
  refine ⟨?_, ?_, ?_, ?_, ?_⟩
  · intro t ht
    have hmem : t ∈ txs.filter (txMatches pf tyf cf sd ed) :=
      (List.perm_insertionSort txOrder _).subset (hsub.subset ht)
    have := List.mem_filter.mp hmem
    exact ⟨this.2, this.1⟩
  · exact (List.sorted_insertionSort txOrder _).sublist hsub
  · rw [← htotal, List.countP_eq_length_filter]
  · exact ⟨List.insertionSort txOrder (txs.filter (txMatches pf tyf cf sd ed)),
      List.perm_insertionSort txOrder _, List.sorted_insertionSort txOrder _, hpage.symm⟩
  · intro limit2 offset2 page2 total2 h2
    unfold transactionRepoList at h2
    simp only [Except.ok.injEq, Prod.mk.injEq] at h2
    rw [← h2.2, ← htotal]

/-- Witness for the transaction list theorem: three stored transactions, a
propertyID filter, a type filter and a date range; the matching two are
returned in date-descending order and the count is 2. -/
theorem transactionList_filter_order_count_witness :
    transactionRepoList [txE1, txE2, txI3] (some "P1") (some "expense") none
        (some 2) (some 100) 10 0 = .ok ([txE2, txE1], 2) ∧
    (∀ t ∈ [txE2, txE1],
      txMatches (some "P1") (some "expense") none (some 2) (some 100) t = true ∧
        t ∈ [txE1, txE2, txI3]) ∧
    List.Sorted txOrder [txE2, txE1] ∧
    (2 : Nat) =
      List.countP (txMatches (some "P1") (some "expense") none (some 2) (some 100))
        [txE1, txE2, txI3] ∧
    (∃ sorted,
      sorted.Perm (List.filter
        (txMatches (some "P1") (some "expense") none (some 2) (some 100))
        [txE1, txE2, txI3]) ∧
      List.Sorted txOrder sorted ∧
      [txE2, txE1] = (sorted.drop (0 : Int).toNat).take (10 : Int).toNat) ∧
    (∀ (limit2 offset2 : Int) (page2 : List Transaction) (total2 : Nat),
      transactionRepoList [txE1, txE2, txI3] (some "P1") (some "expense") none
          (some 2) (some 100) limit2 offset2 = .ok (page2, total2) →
        total2 = 2) := by
  refine ⟨by decide, ?_⟩
  exact transactionList_filter_order_count [txE1, txE2, txI3] (some "P1") (some "expense")
    none (some 2) (some 100) 10 0 [txE2, txE1] 2 (by decide)

/-- Witness for the update-stamping theorem: the caller set `updatedAt = 50`
but the persisted record carries the repository time 99. -/
theorem repoUpdate_stamps_updatedAt_witness :
    fsGet (·.id) [(⟨uuidA, "Rent", "income", 1, 99⟩ : TransactionCategory)] uuidA =
      some ⟨uuidA, "Rent", "income", 1, 99⟩ := by
  exact repoUpdate_stamps_updatedAt.1 [catRentIncome] _ ⟨uuidA, "Rent", "income", 1, 50⟩ 99
    (by decide)

end HabitatTrack
